import Mathlib

/-!
Shallow embedding of `src/validate_renewal_lambda/lambda_function.py`:
the schema-tolerant renewal-opportunity validation engine.

CRM records are JSON-like maps from field name to value.  Python truthiness
(`if x:`) is modelled by `truthy`; `dict.get` with and without a default by
`pyGetD` / `pyGet`; `str.lower()` by `pyLower`, which fails (as Python raises
`AttributeError`) on non-string values; `float(x)` by `pyFloat` (numeric and
boolean arguments convert, `None` and containers fail as in Python; conversion
of numeric strings is not modelled because CRM JSON numeric fields arrive as
numbers).  Machine floats are modelled by exact rationals; the one float
comparison in the source uses the literal tolerance `0.01`, embedded as
`1/100`.  The outward CRM calls are parameters: the primary query result is
passed as a list of records, and each secondary lookup as an `Except` value
(`Except.error` standing for a raised exception at that call site).
-/

namespace RenewalValidation

/-- A JSON-like CRM value. -/
inductive Value where
  | vNull
  | vBool (b : Bool)
  | vStr (s : String)
  | vNum (q : ℚ)
  | vList (xs : List Value)
  | vObj (fs : List (String × Value))

/-- A CRM record: ordered map from field name to value. -/
def SRecord := List (String × Value)

/-- Python truthiness of a value (`if x:`). -/
def truthy : Value → Bool
  | .vNull => false
  | .vBool b => b
  | .vStr s => !(s == "")
  | .vNum q => !(q == 0)
  | .vList xs => !xs.isEmpty
  | .vObj fs => !fs.isEmpty

/-- `record.get(key, default)`: the value if the key is present (even when it
is null), otherwise the default. -/
def pyGetD (r : SRecord) (k : String) (d : Value) : Value :=
  match List.lookup k r with
  | some v => v
  | none => d

/-- `record.get(key)`: defaults to `None`. -/
def pyGet (r : SRecord) (k : String) : Value :=
  pyGetD r k .vNull

/-- Python `str()` of a value, as interpolated into f-strings.  Containers
never reach an f-string in the embedded code paths, so their rendering is a
fixed placeholder. -/
def pyStr : Value → String
  | .vNull => "None"
  | .vBool b => if b then "True" else "False"
  | .vStr s => s
  | .vNum q => toString q
  | .vList _ => "<list>"
  | .vObj _ => "<dict>"

/-- ASCII lowercase of a string (`str.lower()` on the ASCII field values the
engine handles; built from `Char.toLower` so that it evaluates). -/
def strToLower (s : String) : String := ⟨s.data.map Char.toLower⟩

/-- `x.lower()`: succeeds only on strings, raises `AttributeError` otherwise
(notably on `None`). -/
def pyLower : Value → Except String String
  | .vStr s => .ok (strToLower s)
  | _ => .error "AttributeError: object has no attribute lower"

/-- `float(x)` on CRM values: numbers and booleans convert, everything else
raises. -/
def pyFloat : Value → Except String ℚ
  | .vNum q => .ok q
  | .vBool b => .ok (if b then 1 else 0)
  | _ => .error "TypeError: float() argument"

/-- Python `repr` of a list of strings, as interpolated into the
`Looked for: {...}` messages. -/
def pyReprList (xs : List String) : String :=
  "[" ++ String.intercalate ", " (xs.map (fun s => "\x27" ++ s ++ "\x27")) ++ "]"

/-- One entry of the report (`check` dict built by `add_check`). -/
structure Check where
  name : String
  status : String
  message : String
  details : Option Value

/-- The arguments of one `add_check` call; `details` defaults to `None`. -/
structure CheckArgs where
  name : String
  status : String
  message : String
  details : Value := .vNull

/-- `ValidationResult.__init__`. -/
structure ValidationResult where
  checks : List Check
  has_issues : Bool

def emptyResult : ValidationResult := ⟨[], false⟩

/-- The check dict stored by `add_check`: the `details` key is added only when
the passed details value is truthy (Python `if details:`). -/
def mkCheck (a : CheckArgs) : Check :=
  { name := a.name, status := a.status, message := a.message,
    details := if truthy a.details then some a.details else none }

/-- `ValidationResult.add_check`. -/
def add_check (r : ValidationResult) (a : CheckArgs) : ValidationResult :=
  { checks := r.checks ++ [mkCheck a],
    has_issues := r.has_issues || (a.status == "FAIL" || a.status == "WARNING") }

/-- The dictionary produced by `ValidationResult.to_dict`. -/
structure Report where
  overall_status : String
  total_checks : Nat
  passed : Nat
  failed : Nat
  warnings : Nat
  skipped : Nat
  checks : List Check

/-- `ValidationResult.to_dict`. -/
def to_dict (r : ValidationResult) : Report :=
  { overall_status := if r.has_issues then "ISSUES FOUND" else "ALL GOOD",
    total_checks := r.checks.length,
    passed := (r.checks.filter (fun c => c.status == "PASS")).length,
    failed := (r.checks.filter (fun c => c.status == "FAIL")).length,
    warnings := (r.checks.filter (fun c => c.status == "WARNING")).length,
    skipped := (r.checks.filter (fun c => c.status == "SKIP")).length,
    checks := r.checks }

/-- `custom_field_mappings`: logical key → ranked candidate field names, in
source order. -/
def custom_field_mappings : List (String × List String) :=
  [("netsuite_id", ["NetSuite_ID__c", "NetSuiteID__c", "Netsuite_Id__c", "NS_ID__c", "NetSuite_Internal_ID__c"]),
   ("parent_sub_id", ["Parent_Subscription_ID__c", "Parent_Sub_ID__c", "ParentSubscriptionId__c", "Parent_Subscription__c"]),
   ("price_reset", ["Price_Reset__c", "Is_Price_Reset__c", "PriceReset__c"]),
   ("auto_renewed_last_term", ["Auto_Renewed_Last_Term__c", "AutoRenewedLastTerm__c", "Auto_Renewal_Last_Term__c"]),
   ("cancelled_before_renewal", ["Cancelled_before_Renewal_Cycle__c", "Cancelled_Before_Renewal__c", "CancelledBeforeRenewal__c"]),
   ("cancellation_notice", ["Cancellation_Notice__c", "CancellationNotice__c", "Cancellation_Notice_Link__c"]),
   ("auto_renewal_clause", ["Auto_Renewal_Clause__c", "AutoRenewalClause__c", "AR_Clause__c"]),
   ("prev_quote_ar_clause", ["Prev_Quote_w_AR_Clause__c", "Previous_Quote_AR_Clause__c", "Prev_Quote_AR__c"]),
   ("o2c_processed", ["O2C_Processed__c", "Processed_via_O2C__c", "O2C__c"]),
   ("subscription_id", ["SBQQ__RenewedContract__c", "Subscription__c", "Subscription_ID__c", "CPQ_Subscription__c"]),
   ("previous_quote", ["Previous_Quote__c", "Prev_Quote__c", "Prior_Quote__c", "SBQQ__RenewedQuote__c"])]

/-- The candidate list declared for a logical key (used in the
`Looked for:` diagnostics). -/
def candidatesFor (k : String) : List String :=
  (List.lookup k custom_field_mappings).getD []

/-- Inner loop of field discovery: first candidate present in the schema's
field list (`for field_name in possible_names: if field_name in opp_fields:
... break`). -/
def resolveKey (possible_names : List String) (opp_fields : List String) : Option String :=
  possible_names.find? (fun n => opp_fields.contains n)

/-- The `found_fields` dict: for each logical key in declaration order, the
first candidate physical name present in the schema, keys with no match
omitted. -/
def resolveFields (mappings : List (String × List String)) (opp_fields : List String) :
    List (String × String) :=
  mappings.filterMap (fun p => (resolveKey p.2 opp_fields).map (fun n => (p.1, n)))

/-- The initial `Opportunity Found` INFO entry (source lines 172-176). -/
def opportunity_found_args (opp : SRecord) : CheckArgs :=
  { name := "Opportunity Found", status := "INFO",
    message := "Validating: " ++ pyStr (pyGet opp "Name"),
    details := .vObj [("Stage", pyGet opp "StageName"), ("Amount", pyGet opp "Amount"),
                      ("Close Date", pyGet opp "CloseDate")] }

/-- The single FAIL entry emitted when the primary fetch returns no rows. -/
def not_found_args (opportunity_id : String) : CheckArgs :=
  { name := "Opportunity Exists", status := "FAIL",
    message := "Opportunity " ++ opportunity_id ++ " not found" }

/-- CHECK 1: NetSuite ID (if O2C processed). -/
def check1_o2c_netsuite (found_fields : List (String × String)) (opp : SRecord) : CheckArgs :=
  match List.lookup "o2c_processed" found_fields with
  | some o2c_field =>
    if truthy (pyGet opp o2c_field) then
      match List.lookup "netsuite_id" found_fields with
      | some netsuite_field =>
        let netsuite_id := pyGet opp netsuite_field
        if truthy netsuite_id then
          { name := "O2C - NetSuite ID", status := "PASS",
            message := "NetSuite ID is populated: " ++ pyStr netsuite_id,
            details := .vObj [("NetSuite_ID", netsuite_id)] }
        else
          { name := "O2C - NetSuite ID", status := "FAIL",
            message := "O2C processed but NetSuite ID is missing - should point to valid draft Renewal sub" }
      | none =>
        { name := "O2C - NetSuite ID", status := "WARNING",
          message := "NetSuite ID field not found. Looked for: " ++ pyReprList (candidatesFor "netsuite_id") }
    else
      { name := "O2C - NetSuite ID", status := "SKIP", message := "Not processed via O2C" }
  | none =>
    { name := "O2C - NetSuite ID", status := "SKIP",
      message := "O2C field not found. Looked for: " ++ pyReprList (candidatesFor "o2c_processed") }

/-- CHECK 2: Parent Subscription ID.  `subLookup` is the secondary existence
query by subscription id; its `Except.error` is the source's `except` path. -/
def check2_parent_subscription (found_fields : List (String × String)) (opp : SRecord)
    (subLookup : Value → Except String (List SRecord)) : CheckArgs :=
  match List.lookup "parent_sub_id" found_fields with
  | some parent_sub_field =>
    let parent_sub_id := pyGet opp parent_sub_field
    if truthy parent_sub_id then
      match subLookup parent_sub_id with
      | .ok (sub :: _) =>
        { name := "Parent Subscription ID", status := "PASS",
          message := "Parent Subscription is valid: " ++ pyStr (pyGetD sub "Name" parent_sub_id),
          details := .vObj [("Subscription_ID", parent_sub_id)] }
      | .ok [] =>
        { name := "Parent Subscription ID", status := "FAIL",
          message := "Parent Subscription ID " ++ pyStr parent_sub_id ++ " not found in system" }
      | .error e =>
        { name := "Parent Subscription ID", status := "WARNING",
          message := "Could not validate subscription: " ++ e,
          details := .vObj [("Parent_Sub_ID", parent_sub_id)] }
    else
      { name := "Parent Subscription ID", status := "FAIL",
        message := "Parent Subscription ID is not populated" }
  | none =>
    { name := "Parent Subscription ID", status := "WARNING",
      message := "Parent Sub ID field not found. Looked for: " ++ pyReprList (candidatesFor "parent_sub_id") }

/-- Accepted-status test on a quote record
(`q.get('SBQQ__Status__c') in ['Accepted', 'Signed', 'Approved']`). -/
def statusSigned (q : SRecord) : Bool :=
  match pyGet q "SBQQ__Status__c" with
  | .vStr s => ["Accepted", "Signed", "Approved"].contains s
  | _ => false

/-- CHECK 3 body: everything inside the source's `try:` block (the quote list
query, the signed filter, the float conversions and the comparison).  A raised
exception anywhere inside is an `Except.error`. -/
def check3_body (opp : SRecord) (quotes : List SRecord) : Except String CheckArgs :=
  match quotes with
  | [] =>
    .ok { name := "Renewal Data vs Signed Quote", status := "WARNING",
          message := "No quotes found for this opportunity" }
  | _ :: _ =>
    match quotes.filter statusSigned with
    | signed_quote :: _ =>
      let quote_amount := pyGet signed_quote "SBQQ__NetAmount__c"
      let opp_amount := pyGet opp "Amount"
      if truthy quote_amount && truthy opp_amount then do
        let qa ← pyFloat quote_amount
        let oa ← pyFloat opp_amount
        if |qa - oa| < 1/100 then
          .ok { name := "Renewal Data vs Signed Quote", status := "PASS",
                message := "Opportunity amount matches signed quote",
                details := .vObj [("Quote", pyGet signed_quote "Name"),
                                  ("Quote_Amount", quote_amount),
                                  ("Opp_Amount", opp_amount)] }
        else
          .ok { name := "Renewal Data vs Signed Quote", status := "WARNING",
                message := "Amount mismatch between Opp (" ++ pyStr opp_amount ++
                           ") and Quote (" ++ pyStr quote_amount ++ ")",
                details := .vObj [("Quote", pyGet signed_quote "Name"),
                                  ("Quote_Amount", quote_amount),
                                  ("Opp_Amount", opp_amount),
                                  ("Difference", .vNum |qa - oa|)] }
      else
        .ok { name := "Renewal Data vs Signed Quote", status := "INFO",
              message := "Signed quote found: " ++ pyStr (pyGet signed_quote "Name"),
              details := .vObj [("Quote_Status", pyGet signed_quote "SBQQ__Status__c")] }
    | [] =>
      .ok { name := "Renewal Data vs Signed Quote", status := "WARNING",
            message := "No signed/accepted quote found. " ++ toString quotes.length ++
                       " quote(s) in other statuses.",
            details := .vObj [("Available_Quotes", .vList ((quotes.take 5).map (fun q => pyGet q "Name")))] }

/-- CHECK 3: Validate Renewal Data Against Signed Quote.  `quoteLookup` is the
quote-list query result; any exception in the `try:` block becomes the SKIP
entry of the source's `except` path. -/
def check3_signed_quote (opp : SRecord) (quoteLookup : Except String (List SRecord)) : CheckArgs :=
  match quoteLookup with
  | .error e =>
    { name := "Renewal Data vs Signed Quote", status := "SKIP",
      message := "Could not query quotes: " ++ e }
  | .ok quotes =>
    match check3_body opp quotes with
    | .ok a => a
    | .error e =>
      { name := "Renewal Data vs Signed Quote", status := "SKIP",
        message := "Could not query quotes: " ++ e }

/-- CHECK 4: Upsells in Current Term.  The whole check is guarded by
`if account_id:` with no `else`: when the account id is falsy the check
appends nothing, hence the list-valued result. -/
def check4_upsells (opp : SRecord) (upsellLookup : Except String (List SRecord)) : List CheckArgs :=
  let account_id := pyGet opp "AccountId"
  if truthy account_id then
    match upsellLookup with
    | .ok [] =>
      [{ name := "Upsells in Current Term", status := "PASS",
         message := "No open upsell/expansion opportunities found" }]
    | .ok upsells =>
      [{ name := "Upsells in Current Term", status := "WARNING",
         message := "Found " ++ toString upsells.length ++
                    " open upsell/expansion opportunities - ensure they\x27re included in renewal",
         details := .vObj [("Upsells", .vList (upsells.map (fun u =>
            .vObj [("Name", pyGet u "Name"), ("Amount", pyGet u "Amount"),
                   ("Stage", pyGet u "StageName"), ("Close_Date", pyGet u "CloseDate")])))] }]
    | .error e =>
      [{ name := "Upsells in Current Term", status := "SKIP",
         message := "Could not query upsells: " ++ e }]
  else []

/-- Whether `pat` begins the character list `s`. -/
def charsStartWith : List Char → List Char → Bool
  | [], _ => true
  | _ :: _, [] => false
  | c :: cs, d :: ds => c == d && charsStartWith cs ds

/-- Whether `pat` occurs contiguously inside `s` (Python `pat in s`). -/
def charsContain (pat : List Char) : List Char → Bool
  | [] => pat.isEmpty
  | s@(_ :: rest) => charsStartWith pat s || charsContain pat rest

/-- `'price reset' in opp_name or 'price-reset' in opp_name`. -/
def priceResetHeuristic (opp_name : String) : Bool :=
  charsContain "price reset".toList opp_name.toList ||
  charsContain "price-reset".toList opp_name.toList

/-- CHECK 5, after the (possibly raising) `opp.get('Name', '').lower()` has
produced `opp_name`. -/
def check5_core (found_fields : List (String × String)) (opp : SRecord) (opp_name : String) : CheckArgs :=
  let is_likely_price_reset := priceResetHeuristic opp_name
  match List.lookup "price_reset" found_fields with
  | some price_reset_field =>
    let price_reset_checked := truthy (pyGet opp price_reset_field)
    if is_likely_price_reset then
      if price_reset_checked then
        { name := "Price Reset Checkbox", status := "PASS",
          message := "Price Reset checkbox is checked" }
      else
        { name := "Price Reset Checkbox", status := "FAIL",
          message := "This appears to be a Price Reset opportunity but checkbox is NOT checked" }
    else
      if price_reset_checked then
        { name := "Price Reset Checkbox", status := "INFO",
          message := "Price Reset checkbox is checked" }
      else
        { name := "Price Reset Checkbox", status := "SKIP",
          message := "Not a Price Reset opportunity" }
  | none =>
    { name := "Price Reset Checkbox", status := "SKIP",
      message := "Price Reset field not found. Looked for: " ++ pyReprList (candidatesFor "price_reset") }

/-- CHECK 5: Price Reset Opportunity, including the unguarded
`opp.get('Name', '').lower()` (source line 393), which raises when the
record's Name value is present but not a string. -/
def check5_price_reset (found_fields : List (String × String)) (opp : SRecord) :
    Except String CheckArgs :=
  (pyLower (pyGetD opp "Name" (.vStr ""))).map (check5_core found_fields opp)

/-- CHECK 6: Auto-Renewed Last Term. -/
def check6_auto_renewed (found_fields : List (String × String)) (opp : SRecord) : CheckArgs :=
  match List.lookup "auto_renewed_last_term" found_fields with
  | some auto_renewed_field =>
    let auto_renewed := pyGet opp auto_renewed_field
    { name := "Auto-Renewed Last Term", status := "INFO",
      message := "Auto-Renewed Last Term: " ++ (if truthy auto_renewed then "Yes" else "No"),
      details := .vObj [("Value", auto_renewed)] }
  | none =>
    { name := "Auto-Renewed Last Term", status := "SKIP",
      message := "Field not found. Looked for: " ++ pyReprList (candidatesFor "auto_renewed_last_term") }

/-- The closed-lost-equivalent stage set of source line 458. -/
def lostStages : List String := ["closed lost", "lost", "cancelled"]

/-- `is_lost = opp.get('StageName', '').lower() in ['closed lost', 'lost',
'cancelled']` (source line 458): raises when StageName is present but not a
string. -/
def is_lost_of (opp : SRecord) : Except String Bool :=
  (pyLower (pyGetD opp "StageName" (.vStr ""))).map (fun s => lostStages.contains s)

/-- CHECK 7: Cancellation Handling, given the already-computed `is_lost`. -/
def check7_cancellation (found_fields : List (String × String)) (opp : SRecord)
    (is_lost : Bool) : CheckArgs :=
  match List.lookup "cancelled_before_renewal" found_fields with
  | some cancelled_field =>
    if truthy (pyGet opp cancelled_field) then
      let details0 : List (String × Value) := [("Cancelled_Before_Renewal", .vBool true)]
      let step1 : List String × List (String × Value) :=
        match List.lookup "cancellation_notice" found_fields with
        | some cancellation_notice_field =>
          let notice := pyGet opp cancellation_notice_field
          if truthy notice then ([], details0 ++ [("Cancellation_Notice", notice)])
          else (["Cancellation Notice not attached"], details0)
        | none => ([], details0)
      let step2 : List String × List (String × Value) :=
        if !is_lost then
          (step1.1 ++ ["Stage is \x27" ++ pyStr (pyGet opp "StageName") ++ "\x27 - should use Lost Button"],
           step1.2)
        else (step1.1, step1.2 ++ [("Stage", pyGet opp "StageName")])
      if !step2.1.isEmpty then
        { name := "Cancellation Handling", status := "FAIL",
          message := "Cancellation issues: " ++ String.intercalate "; " step2.1,
          details := .vObj step2.2 }
      else
        { name := "Cancellation Handling", status := "PASS",
          message := "Cancellation properly documented",
          details := .vObj step2.2 }
    else
      { name := "Cancellation Handling", status := "SKIP",
        message := "Customer did not send cancellation" }
  | none =>
    { name := "Cancellation Handling", status := "SKIP",
      message := "Cancellation field not found. Looked for: " ++ pyReprList (candidatesFor "cancelled_before_renewal") }

/-- CHECK 8: Auto-Renewal Clause from Previous Quote. -/
def check8_ar_clause (found_fields : List (String × String)) (opp : SRecord) : CheckArgs :=
  match List.lookup "auto_renewal_clause" found_fields with
  | some ar_clause_field =>
    if truthy (pyGet opp ar_clause_field) then
      match List.lookup "prev_quote_ar_clause" found_fields with
      | some prev_quote_ar_field =>
        let prev_quote_link := pyGet opp prev_quote_ar_field
        if truthy prev_quote_link then
          { name := "Auto-Renewal Clause", status := "PASS",
            message := "AR Clause checked and previous quote link provided",
            details := .vObj [("AR_Clause", .vBool true), ("Prev_Quote_Link", prev_quote_link)] }
        else
          { name := "Auto-Renewal Clause", status := "FAIL",
            message := "AR Clause is checked but \x27Prev Quote w/ AR Clause\x27 link is missing" }
      | none =>
        { name := "Auto-Renewal Clause", status := "WARNING",
          message := "AR Clause is checked. Could not verify prev quote link field.",
          details := .vObj [("AR_Clause", .vBool true)] }
    else
      { name := "Auto-Renewal Clause", status := "SKIP",
        message := "Previous quote does not have AR clause" }
  | none =>
    { name := "Auto-Renewal Clause", status := "SKIP",
      message := "AR Clause field not found. Looked for: " ++ pyReprList (candidatesFor "auto_renewal_clause") }

/-- SUMMARY: the final Field Discovery INFO entry. -/
def field_discovery (found_fields : List (String × String)) : CheckArgs :=
  { name := "Field Discovery", status := "INFO",
    message := "Found " ++ toString found_fields.length ++ " of " ++
               toString custom_field_mappings.length ++ " expected custom fields",
    details := .vObj
      [("Found_Fields", .vObj (found_fields.map (fun p => (p.1, .vStr p.2)))),
       ("Missing_Fields", .vList ((custom_field_mappings.filter
          (fun p => (List.lookup p.1 found_fields).isNone)).map (fun p => .vStr p.1)))] }

/-- `validate_renewal_opportunity`.  Parameters stand for the outward CRM
calls: `opp_fields` is the describe result, `primary` the rows of the primary
opportunity query, and the three lookups the secondary queries (with
`Except.error` standing for a raised exception at that call site).  The result
is `Except.error` exactly when an uncaught exception escapes the function. -/
def validate_renewal_opportunity (opp_fields : List String) (opportunity_id : String)
    (primary : List SRecord)
    (subLookup : Value → Except String (List SRecord))
    (quoteLookup : Except String (List SRecord))
    (upsellLookup : Except String (List SRecord)) : Except String ValidationResult := do
  let found_fields := resolveFields custom_field_mappings opp_fields
  match primary with
  | [] => return add_check emptyResult (not_found_args opportunity_id)
  | opp :: _ =>
    let r0 := add_check emptyResult (opportunity_found_args opp)
    let r1 := add_check r0 (check1_o2c_netsuite found_fields opp)
    let r2 := add_check r1 (check2_parent_subscription found_fields opp subLookup)
    let r3 := add_check r2 (check3_signed_quote opp quoteLookup)
    let r4 := (check4_upsells opp upsellLookup).foldl add_check r3
    let c5 ← check5_price_reset found_fields opp
    let r5 := add_check r4 c5
    let r6 := add_check r5 (check6_auto_renewed found_fields opp)
    let lost ← is_lost_of opp
    let r7 := add_check r6 (check7_cancellation found_fields opp lost)
    let r8 := add_check r7 (check8_ar_clause found_fields opp)
    return add_check r8 (field_discovery found_fields)

/-- The `add_check` argument sequence of a run whose primary fetch found the
record `opp`, given the (string) Name and StageName values `nm` and `st`. -/
def battery_args (opp_fields : List String) (opp : SRecord)
    (subLookup : Value → Except String (List SRecord))
    (quoteLookup upsellLookup : Except String (List SRecord))
    (nm st : String) : List CheckArgs :=
  let found_fields := resolveFields custom_field_mappings opp_fields
  ([opportunity_found_args opp,
    check1_o2c_netsuite found_fields opp,
    check2_parent_subscription found_fields opp subLookup,
    check3_signed_quote opp quoteLookup]
   ++ check4_upsells opp upsellLookup
   ++ [check5_core found_fields opp (strToLower nm),
       check6_auto_renewed found_fields opp,
       check7_cancellation found_fields opp (lostStages.contains (strToLower st)),
       check8_ar_clause found_fields opp])
  ++ [field_discovery found_fields]

/-- Whether the cancellation check records the missing-notice issue: the
notice field resolved and its value falsy. -/
def noticeIssueB (f : List (String × String)) (opp : SRecord) : Bool :=
  match List.lookup "cancellation_notice" f with
  | some nf => !truthy (pyGet opp nf)
  | none => false

/-- A named entry of a check's details object. -/
def argsDetail (a : CheckArgs) (k : String) : Option Value :=
  match a.details with
  | .vObj l => List.lookup k l
  | _ => none


/-! ## Helper lemmas -/

theorem mkCheck_name (a : CheckArgs) : (mkCheck a).name = a.name := rfl

theorem mkCheck_status (a : CheckArgs) : (mkCheck a).status = a.status := rfl

theorem foldl_add_check_checks (l : List CheckArgs) (r : ValidationResult) :
    (l.foldl add_check r).checks = r.checks ++ l.map mkCheck := by
  induction l generalizing r with
  | nil => simp
  | cons a l ih => simp [List.foldl_cons, ih, add_check]

theorem foldl_add_check_issues (l : List CheckArgs) (r : ValidationResult) :
    (l.foldl add_check r).has_issues
      = (r.has_issues || l.any (fun a => a.status == "FAIL" || a.status == "WARNING")) := by
  induction l generalizing r with
  | nil => simp
  | cons a l ih => simp [List.foldl_cons, ih, add_check, Bool.or_assoc]

/-! ## Claim C2 -/

/-- Claim C2: for every finalized report, regardless of the permutation of
outcome statuses, `overall_status` equals "ISSUES FOUND" iff at least one
outcome has status FAIL or WARNING, and equals "ALL GOOD" otherwise. -/
theorem c2_overall_status_iff (entries : List CheckArgs) :
    ((to_dict (entries.foldl add_check emptyResult)).overall_status = "ISSUES FOUND"
      ↔ ∃ c ∈ (to_dict (entries.foldl add_check emptyResult)).checks,
          c.status = "FAIL" ∨ c.status = "WARNING")
    ∧ ((to_dict (entries.foldl add_check emptyResult)).overall_status = "ALL GOOD"
      ↔ ¬ ∃ c ∈ (to_dict (entries.foldl add_check emptyResult)).checks,
          c.status = "FAIL" ∨ c.status = "WARNING") := by
  have hchecks : (entries.foldl add_check emptyResult).checks = entries.map mkCheck := by
    simpa [emptyResult] using foldl_add_check_checks entries emptyResult
  have hiss : (entries.foldl add_check emptyResult).has_issues
      = entries.any (fun a => a.status == "FAIL" || a.status == "WARNING") := by
    simpa [emptyResult] using foldl_add_check_issues entries emptyResult
  have hex : (entries.any (fun a => a.status == "FAIL" || a.status == "WARNING") = true)
      ↔ ∃ c ∈ entries.map mkCheck, c.status = "FAIL" ∨ c.status = "WARNING" := by
    simp [List.any_eq_true, mkCheck]
  cases hb : entries.any (fun a => a.status == "FAIL" || a.status == "WARNING") with
  | false =>
    rw [hb] at hex
    have hnotex : ¬ ∃ c ∈ entries.map mkCheck, c.status = "FAIL" ∨ c.status = "WARNING" :=
      fun h => absurd (hex.mpr h) (by decide)
    constructor
    · simp only [to_dict, hiss, hchecks, hb]
      exact ⟨fun h => absurd h (by decide), fun h => absurd h hnotex⟩
    · simp only [to_dict, hiss, hchecks, hb]
      exact ⟨fun _ => hnotex, fun _ => rfl⟩
  | true =>
    rw [hb] at hex
    constructor
    · simp only [to_dict, hiss, hchecks, hb]
      exact ⟨fun _ => hex.mp rfl, fun _ => rfl⟩
    · simp only [to_dict, hiss, hchecks, hb]
      exact ⟨fun h => absurd h (by decide), fun h => absurd (hex.mp rfl) h⟩

/-! ## Claim C3 -/

/-- Claim C3: when the primary fetch returns zero rows, the report has exactly
one outcome, a FAIL with a record-not-found message, no battery check runs,
and `overall_status` is "ISSUES FOUND". -/
theorem c3_record_not_found (fs : List String) (oid : String)
    (subL : Value → Except String (List SRecord)) (qL uL : Except String (List SRecord)) :
    Except.map (fun r => ((to_dict r).overall_status, (to_dict r).total_checks, r.checks))
        (validate_renewal_opportunity fs oid [] subL qL uL)
      = Except.ok ("ISSUES FOUND", 1,
          [{ name := "Opportunity Exists", status := "FAIL",
             message := "Opportunity " ++ oid ++ " not found", details := none }]) := by
  rfl

/-! ## Claim C4 -/

theorem resolveFields_lookup_miss (m : List (String × List String)) (a : List String)
    (k : String) (hk : k ∉ m.map Prod.fst) :
    List.lookup k (resolveFields m a) = none := by
  induction m with
  | nil => rfl
  | cons p m ih =>
    simp only [List.map_cons, List.mem_cons, not_or] at hk
    obtain ⟨hk1, hk2⟩ := hk
    have hbk : (k == p.1) = false := by simpa using hk1
    simp only [resolveFields, List.filterMap_cons] at *
    cases hr : resolveKey p.2 a with
    | none => simpa [hr] using ih hk2
    | some n => simpa [hr, List.lookup, hbk] using ih hk2

theorem resolveFields_lookup_eq (m : List (String × List String)) (a : List String)
    (hnd : (m.map Prod.fst).Nodup) (k : String) (cands : List String)
    (hk : List.lookup k m = some cands) :
    List.lookup k (resolveFields m a) = resolveKey cands a := by
  induction m with
  | nil => simp [List.lookup] at hk
  | cons p m ih =>
    obtain ⟨k1, cs⟩ := p
    simp only [List.map_cons, List.nodup_cons] at hnd
    obtain ⟨hnotin, hnd2⟩ := hnd
    by_cases hkk : k = k1
    · subst hkk
      have hcs : cs = cands := by simpa [List.lookup] using hk
      subst hcs
      simp only [resolveFields, List.filterMap_cons]
      cases hr : resolveKey cs a with
      | none =>
        simp only [hr, Option.map_none']
        exact resolveFields_lookup_miss m a k hnotin
      | some n =>
        simp only [hr, Option.map_some']
        simp [List.lookup]
    · have hbk : (k == k1) = false := by simpa using hkk
      have hk2 : List.lookup k m = some cands := by
        simpa [List.lookup, hbk] using hk
      simp only [resolveFields, List.filterMap_cons]
      cases hr : resolveKey cs a with
      | none =>
        simp only [hr, Option.map_none']
        exact ih hnd2 hk2
      | some n =>
        simp only [hr, Option.map_some', List.lookup, hbk]
        exact ih hnd2 hk2

theorem resolveKey_spec_found (cands a : List String) (n : String)
    (h : resolveKey cands a = some n) :
    ∃ pre suf, cands = pre ++ n :: suf ∧ n ∈ a ∧ ∀ c ∈ pre, c ∉ a := by
  induction cands with
  | nil => exact absurd h (by simp [resolveKey])
  | cons c cs ih =>
    rw [resolveKey] at h
    cases hc : a.contains c with
    | true =>
      rw [List.find?_cons_of_pos _ hc] at h
      obtain rfl : c = n := Option.some.inj h
      exact ⟨[], cs, rfl, List.elem_iff.mp hc, by simp⟩
    | false =>
      have hcm : c ∉ a := fun hm => by
        have hcon : List.elem c a = true := List.elem_iff.mpr hm
        have hc2 : List.elem c a = false := hc
        rw [hc2] at hcon
        exact Bool.false_ne_true hcon
      rw [@List.find?_cons_of_neg String (fun n => a.contains n) c cs
            (fun hcon => hcm (List.elem_iff.mp hcon))] at h
      have h2 : resolveKey cs a = some n := by rw [resolveKey]; exact h
      obtain ⟨pre, suf, hsplit, hna, hpre⟩ := ih h2
      refine ⟨c :: pre, suf, by simp [hsplit], hna, ?_⟩
      intro x hx
      rcases List.mem_cons.mp hx with rfl | hx1
      · exact hcm
      · exact hpre x hx1

theorem resolveKey_eq_none_iff (cands a : List String) :
    resolveKey cands a = none ↔ ∀ c ∈ cands, c ∉ a := by
  constructor
  · intro h c hc hmem
    have := List.find?_eq_none.mp h c hc
    exact this (List.elem_iff.mpr hmem)
  · intro h
    apply List.find?_eq_none.mpr
    intro x hx
    simpa using fun hmem => h x hx (List.elem_iff.mp hmem)

/-- Claim C4: field resolution is a pure, deterministic, first-match-wins
function: each logical key resolves to the first candidate in its declared
candidate-list order that occurs in the available field names, resolves to
not-found when no candidate occurs, and resolution of the same inputs is
identical. -/
theorem c4_resolver_first_match (m : List (String × List String)) (a : List String)
    (hnd : (m.map Prod.fst).Nodup) (k : String) (cands : List String)
    (hk : List.lookup k m = some cands) :
    (List.lookup k (resolveFields m a) = resolveKey cands a)
    ∧ (∀ n, resolveKey cands a = some n →
        ∃ pre suf, cands = pre ++ n :: suf ∧ n ∈ a ∧ ∀ c ∈ pre, c ∉ a)
    ∧ (resolveKey cands a = none ↔ ∀ c ∈ cands, c ∉ a)
    ∧ resolveFields m a = resolveFields m a :=
  ⟨resolveFields_lookup_eq m a hnd k cands hk,
   fun n hn => resolveKey_spec_found cands a n hn,
   resolveKey_eq_none_iff cands a, rfl⟩

/-- Witness for C4 at the engine's own candidate table and a concrete schema:
`netsuite_id` resolves to the first present candidate. -/
theorem c4_resolver_first_match_witness :
    (custom_field_mappings.map Prod.fst).Nodup
    ∧ List.lookup "netsuite_id" custom_field_mappings
        = some ["NetSuite_ID__c", "NetSuiteID__c", "Netsuite_Id__c", "NS_ID__c", "NetSuite_Internal_ID__c"]
    ∧ List.lookup "netsuite_id" (resolveFields custom_field_mappings ["NetSuiteID__c", "NS_ID__c"])
        = resolveKey ["NetSuite_ID__c", "NetSuiteID__c", "Netsuite_Id__c", "NS_ID__c", "NetSuite_Internal_ID__c"]
            ["NetSuiteID__c", "NS_ID__c"]
    ∧ List.lookup "netsuite_id" (resolveFields custom_field_mappings ["NetSuiteID__c", "NS_ID__c"])
        = some "NetSuiteID__c" :=
  ⟨by decide, rfl,
   (c4_resolver_first_match custom_field_mappings ["NetSuiteID__c", "NS_ID__c"]
      (by decide) "netsuite_id" _ rfl).1, rfl⟩

/-! ## Claim C10 -/

theorem report_counts_sum (l : List Check)
    (h : ∀ c ∈ l, c.status = "PASS" ∨ c.status = "FAIL" ∨ c.status = "WARNING"
          ∨ c.status = "SKIP" ∨ c.status = "INFO") :
    (l.filter (fun c => c.status == "PASS")).length
      + (l.filter (fun c => c.status == "FAIL")).length
      + (l.filter (fun c => c.status == "WARNING")).length
      + (l.filter (fun c => c.status == "SKIP")).length
      + (l.filter (fun c => c.status == "INFO")).length = l.length := by
  induction l with
  | nil => rfl
  | cons c l ih =>
    have hc := h c (List.mem_cons_self c l)
    have ihl := ih (fun x hx => h x (List.mem_cons_of_mem c hx))
    rcases hc with h1 | h1 | h1 | h1 | h1 <;>
      simp [List.filter_cons, h1] <;> omega

/-- Claim C10: in every finalized report, `total_checks` equals the number of
outcomes; `passed`, `failed`, `warnings`, `skipped` are exactly the counts of
PASS, FAIL, WARNING, SKIP outcomes; INFO outcomes are counted in
`total_checks` but in none of the four counters, so the four counters sum to
`total_checks` minus the number of INFO outcomes. -/
theorem c10_report_counts (entries : List CheckArgs)
    (hv : ∀ a ∈ entries, a.status = "PASS" ∨ a.status = "FAIL" ∨ a.status = "WARNING"
          ∨ a.status = "SKIP" ∨ a.status = "INFO") :
    (to_dict (entries.foldl add_check emptyResult)).total_checks
        = (to_dict (entries.foldl add_check emptyResult)).checks.length
    ∧ (to_dict (entries.foldl add_check emptyResult)).passed
        = ((to_dict (entries.foldl add_check emptyResult)).checks.filter
            (fun c => c.status == "PASS")).length
    ∧ (to_dict (entries.foldl add_check emptyResult)).failed
        = ((to_dict (entries.foldl add_check emptyResult)).checks.filter
            (fun c => c.status == "FAIL")).length
    ∧ (to_dict (entries.foldl add_check emptyResult)).warnings
        = ((to_dict (entries.foldl add_check emptyResult)).checks.filter
            (fun c => c.status == "WARNING")).length
    ∧ (to_dict (entries.foldl add_check emptyResult)).skipped
        = ((to_dict (entries.foldl add_check emptyResult)).checks.filter
            (fun c => c.status == "SKIP")).length
    ∧ (to_dict (entries.foldl add_check emptyResult)).passed
        + (to_dict (entries.foldl add_check emptyResult)).failed
        + (to_dict (entries.foldl add_check emptyResult)).warnings
        + (to_dict (entries.foldl add_check emptyResult)).skipped
        + ((to_dict (entries.foldl add_check emptyResult)).checks.filter
            (fun c => c.status == "INFO")).length
        = (to_dict (entries.foldl add_check emptyResult)).total_checks
    ∧ (to_dict (entries.foldl add_check emptyResult)).passed
        + (to_dict (entries.foldl add_check emptyResult)).failed
        + (to_dict (entries.foldl add_check emptyResult)).warnings
        + (to_dict (entries.foldl add_check emptyResult)).skipped
        = (to_dict (entries.foldl add_check emptyResult)).total_checks
          - ((to_dict (entries.foldl add_check emptyResult)).checks.filter
              (fun c => c.status == "INFO")).length := by
  have hchecks : (entries.foldl add_check emptyResult).checks = entries.map mkCheck := by
    simpa [emptyResult] using foldl_add_check_checks entries emptyResult
  have hval : ∀ c ∈ (entries.foldl add_check emptyResult).checks,
      c.status = "PASS" ∨ c.status = "FAIL" ∨ c.status = "WARNING"
        ∨ c.status = "SKIP" ∨ c.status = "INFO" := by
    intro c hc
    rw [hchecks] at hc
    obtain ⟨b, hb, hcb⟩ := List.mem_map.mp hc
    subst hcb
    simpa [mkCheck] using hv b hb
  have hsum := report_counts_sum (entries.foldl add_check emptyResult).checks hval
  refine ⟨rfl, rfl, rfl, rfl, rfl, ?_, ?_⟩ <;>
    simp only [to_dict] <;> omega

/-- Witness for C10 at a concrete report. -/
theorem c10_report_counts_witness :
    (∀ a ∈ ([⟨"A", "PASS", "m", .vNull⟩, ⟨"B", "INFO", "m", .vNull⟩,
             ⟨"C", "WARNING", "m", .vNull⟩] : List CheckArgs),
        a.status = "PASS" ∨ a.status = "FAIL" ∨ a.status = "WARNING"
          ∨ a.status = "SKIP" ∨ a.status = "INFO")
    ∧ (to_dict (([⟨"A", "PASS", "m", .vNull⟩, ⟨"B", "INFO", "m", .vNull⟩,
             ⟨"C", "WARNING", "m", .vNull⟩] : List CheckArgs).foldl add_check emptyResult)).passed
        + (to_dict (([⟨"A", "PASS", "m", .vNull⟩, ⟨"B", "INFO", "m", .vNull⟩,
             ⟨"C", "WARNING", "m", .vNull⟩] : List CheckArgs).foldl add_check emptyResult)).failed
        + (to_dict (([⟨"A", "PASS", "m", .vNull⟩, ⟨"B", "INFO", "m", .vNull⟩,
             ⟨"C", "WARNING", "m", .vNull⟩] : List CheckArgs).foldl add_check emptyResult)).warnings
        + (to_dict (([⟨"A", "PASS", "m", .vNull⟩, ⟨"B", "INFO", "m", .vNull⟩,
             ⟨"C", "WARNING", "m", .vNull⟩] : List CheckArgs).foldl add_check emptyResult)).skipped
        = (to_dict (([⟨"A", "PASS", "m", .vNull⟩, ⟨"B", "INFO", "m", .vNull⟩,
             ⟨"C", "WARNING", "m", .vNull⟩] : List CheckArgs).foldl add_check emptyResult)).total_checks
          - ((to_dict (([⟨"A", "PASS", "m", .vNull⟩, ⟨"B", "INFO", "m", .vNull⟩,
             ⟨"C", "WARNING", "m", .vNull⟩] : List CheckArgs).foldl add_check emptyResult)).checks.filter
              (fun c => c.status == "INFO")).length :=
  ⟨by decide,
   (c10_report_counts _ (by decide)).2.2.2.2.2.2⟩


/-! ## The shape of a run whose primary fetch found the record -/

theorem check4_len (opp : SRecord) (uL : Except String (List SRecord)) :
    (check4_upsells opp uL).length = if truthy (pyGet opp "AccountId") then 1 else 0 := by
  unfold check4_upsells
  by_cases h : truthy (pyGet opp "AccountId")
  · simp only [h, if_true]
    cases uL with
    | error e => rfl
    | ok us => cases us with
      | nil => rfl
      | cons u us2 => rfl
  · simp [h]

theorem validate_found_eq (fs : List String) (oid : String) (opp : SRecord) (rest : List SRecord)
    (subL : Value → Except String (List SRecord)) (qL uL : Except String (List SRecord))
    (nm st : String)
    (hN : pyGetD opp "Name" (Value.vStr "") = Value.vStr nm)
    (hS : pyGetD opp "StageName" (Value.vStr "") = Value.vStr st) :
    validate_renewal_opportunity fs oid (opp :: rest) subL qL uL
      = Except.ok ((battery_args fs opp subL qL uL nm st).foldl add_check emptyResult) := by
  unfold validate_renewal_opportunity
  simp only [check5_price_reset, is_lost_of, hN, hS, pyLower, Except.map,
    Bind.bind, Except.bind, pure, Except.pure, battery_args,
    List.foldl_append, List.foldl_cons, List.foldl_nil]


/-! ## Claim C1 -/

/-- Claim C1 (amended): when the primary fetch returns a record and the
record's Name and StageName values are strings, the report contains 10
outcomes — an initial "Opportunity Found" INFO entry, one entry per check,
and the Field Discovery entry last — except that the upsell check appends no
outcome when the record's AccountId is falsy, giving 9. -/
theorem c1_outcome_count (fs : List String) (oid : String) (opp : SRecord) (rest : List SRecord)
    (subL : Value → Except String (List SRecord)) (qL uL : Except String (List SRecord))
    (nm st : String)
    (hN : pyGetD opp "Name" (Value.vStr "") = Value.vStr nm)
    (hS : pyGetD opp "StageName" (Value.vStr "") = Value.vStr st) :
    Except.map (fun r => (r.checks.length, r.checks.getLast?.map Check.name))
        (validate_renewal_opportunity fs oid (opp :: rest) subL qL uL)
      = Except.ok ((if truthy (pyGet opp "AccountId") then 10 else 9), some "Field Discovery") := by
  rw [validate_found_eq fs oid opp rest subL qL uL nm st hN hS]
  have hchecks := foldl_add_check_checks (battery_args fs opp subL qL uL nm st) emptyResult
  have hlast : ((battery_args fs opp subL qL uL nm st).foldl add_check emptyResult).checks.getLast?.map Check.name
      = some "Field Discovery" := by
    rw [hchecks]
    simp only [emptyResult, List.nil_append, battery_args, List.map_append, List.map_cons,
      List.map_nil, List.getLast?_concat, Option.map_some']
    rfl
  have hlen2 : ((battery_args fs opp subL qL uL nm st).foldl add_check emptyResult).checks.length
      = if truthy (pyGet opp "AccountId") then 10 else 9 := by
    rw [hchecks]
    by_cases hA : truthy (pyGet opp "AccountId") <;>
      simp [emptyResult, battery_args, check4_len, hA]
  simp only [Except.map]
  rw [hlen2, hlast]

/-- Witness for C1 at a concrete record with falsy AccountId: 9 outcomes,
Field Discovery last. -/
theorem c1_outcome_count_witness :
    pyGetD [("Name", Value.vStr "X"), ("StageName", Value.vStr "S")] "Name" (Value.vStr "")
        = Value.vStr "X"
    ∧ Except.map (fun r => (r.checks.length, r.checks.getLast?.map Check.name))
        (validate_renewal_opportunity [] "OPPX"
          [[("Name", Value.vStr "X"), ("StageName", Value.vStr "S")]]
          (fun _ => Except.ok []) (Except.ok []) (Except.ok []))
      = Except.ok (9, some "Field Discovery") := by
  refine ⟨rfl, ?_⟩
  rw [c1_outcome_count [] "OPPX" [("Name", Value.vStr "X"), ("StageName", Value.vStr "S")] []
        (fun _ => Except.ok []) (Except.ok []) (Except.ok []) "X" "S" rfl rfl]
  rfl

/-- Counterexample to C1 as stated: a found record with a truthy AccountId
yields 10 outcomes, not 9. -/
theorem c1_nine_outcomes_counterexample :
    Except.map (fun r => decide (r.checks.length = 9))
        (validate_renewal_opportunity [] "OPPX"
          [[("Name", Value.vStr "X"), ("StageName", Value.vStr "S"), ("AccountId", Value.vStr "001A")]]
          (fun _ => Except.ok []) (Except.ok []) (Except.ok []))
      = Except.ok false
    ∧ Except.map (fun r => r.checks.length)
        (validate_renewal_opportunity [] "OPPX"
          [[("Name", Value.vStr "X"), ("StageName", Value.vStr "S"), ("AccountId", Value.vStr "001A")]]
          (fun _ => Except.ok []) (Except.ok []) (Except.ok []))
      = Except.ok 10 := ⟨rfl, rfl⟩

/-! ## Claim C9 -/

/-- Claim C9 is violated by the code: a record whose Name (or StageName) value
is null makes the unguarded `.lower()` calls raise, the exception escapes
`validate_renewal_opportunity`, and no report is produced even though the
primary fetch found the record. -/
theorem c9_null_field_aborts_run :
    validate_renewal_opportunity [] "OPP9"
        [[("Name", Value.vNull), ("StageName", Value.vStr "Prospecting")]]
        (fun _ => Except.ok []) (Except.ok []) (Except.ok [])
      = Except.error "AttributeError: object has no attribute lower"
    ∧ validate_renewal_opportunity [] "OPP9"
        [[("Name", Value.vStr "Opp Nine"), ("StageName", Value.vNull)]]
        (fun _ => Except.ok []) (Except.ok []) (Except.ok [])
      = Except.error "AttributeError: object has no attribute lower" := ⟨rfl, rfl⟩

/-! ## Claim C5 -/

/-- Claim C5 (amended): when no candidate of any logical key is in the schema,
Field Discovery reports 0 of 11 expected custom fields with all 11 keys
missing; the checks gated on a resolved field emit SKIP — except the
parent-subscription check, which emits WARNING when its field is unresolved. -/
theorem c5_no_custom_fields (fs : List String) (oid : String) (opp : SRecord) (rest : List SRecord)
    (subL : Value → Except String (List SRecord)) (qL uL : Except String (List SRecord))
    (nm st : String)
    (hres : resolveFields custom_field_mappings fs = [])
    (hN : pyGetD opp "Name" (Value.vStr "") = Value.vStr nm)
    (hS : pyGetD opp "StageName" (Value.vStr "") = Value.vStr st) :
    Except.map ValidationResult.checks
        (validate_renewal_opportunity fs oid (opp :: rest) subL qL uL)
      = Except.ok
         ([mkCheck (opportunity_found_args opp),
           ⟨"O2C - NetSuite ID", "SKIP",
            "O2C field not found. Looked for: [\x27O2C_Processed__c\x27, \x27Processed_via_O2C__c\x27, \x27O2C__c\x27]",
            none⟩,
           ⟨"Parent Subscription ID", "WARNING",
            "Parent Sub ID field not found. Looked for: [\x27Parent_Subscription_ID__c\x27, \x27Parent_Sub_ID__c\x27, \x27ParentSubscriptionId__c\x27, \x27Parent_Subscription__c\x27]",
            none⟩,
           mkCheck (check3_signed_quote opp qL)]
          ++ (check4_upsells opp uL).map mkCheck
          ++ [⟨"Price Reset Checkbox", "SKIP",
               "Price Reset field not found. Looked for: [\x27Price_Reset__c\x27, \x27Is_Price_Reset__c\x27, \x27PriceReset__c\x27]",
               none⟩,
              ⟨"Auto-Renewed Last Term", "SKIP",
               "Field not found. Looked for: [\x27Auto_Renewed_Last_Term__c\x27, \x27AutoRenewedLastTerm__c\x27, \x27Auto_Renewal_Last_Term__c\x27]",
               none⟩,
              ⟨"Cancellation Handling", "SKIP",
               "Cancellation field not found. Looked for: [\x27Cancelled_before_Renewal_Cycle__c\x27, \x27Cancelled_Before_Renewal__c\x27, \x27CancelledBeforeRenewal__c\x27]",
               none⟩,
              ⟨"Auto-Renewal Clause", "SKIP",
               "AR Clause field not found. Looked for: [\x27Auto_Renewal_Clause__c\x27, \x27AutoRenewalClause__c\x27, \x27AR_Clause__c\x27]",
               none⟩,
              ⟨"Field Discovery", "INFO", "Found 0 of 11 expected custom fields",
               some (.vObj [("Found_Fields", .vObj []),
                 ("Missing_Fields", .vList
                   [.vStr "netsuite_id", .vStr "parent_sub_id", .vStr "price_reset",
                    .vStr "auto_renewed_last_term", .vStr "cancelled_before_renewal",
                    .vStr "cancellation_notice", .vStr "auto_renewal_clause",
                    .vStr "prev_quote_ar_clause", .vStr "o2c_processed",
                    .vStr "subscription_id", .vStr "previous_quote"])])⟩]) := by
  rw [validate_found_eq fs oid opp rest subL qL uL nm st hN hS]
  simp only [Except.map]
  rw [foldl_add_check_checks]
  simp only [battery_args, hres, emptyResult, List.nil_append, List.map_append,
    List.map_cons, List.map_nil, List.append_assoc]
  rfl

/-- Witness for C5 at an empty schema and a concrete record. -/
theorem c5_no_custom_fields_witness :
    resolveFields custom_field_mappings [] = []
    ∧ Except.map ValidationResult.checks
        (validate_renewal_opportunity [] "OPPW"
          [[("Name", Value.vStr "W"), ("StageName", Value.vStr "S")]]
          (fun _ => Except.ok []) (Except.ok []) (Except.ok []))
      = Except.ok
         ([mkCheck (opportunity_found_args [("Name", Value.vStr "W"), ("StageName", Value.vStr "S")]),
           ⟨"O2C - NetSuite ID", "SKIP",
            "O2C field not found. Looked for: [\x27O2C_Processed__c\x27, \x27Processed_via_O2C__c\x27, \x27O2C__c\x27]",
            none⟩,
           ⟨"Parent Subscription ID", "WARNING",
            "Parent Sub ID field not found. Looked for: [\x27Parent_Subscription_ID__c\x27, \x27Parent_Sub_ID__c\x27, \x27ParentSubscriptionId__c\x27, \x27Parent_Subscription__c\x27]",
            none⟩,
           mkCheck (check3_signed_quote [("Name", Value.vStr "W"), ("StageName", Value.vStr "S")] (Except.ok []))]
          ++ (check4_upsells [("Name", Value.vStr "W"), ("StageName", Value.vStr "S")] (Except.ok [])).map mkCheck
          ++ [⟨"Price Reset Checkbox", "SKIP",
               "Price Reset field not found. Looked for: [\x27Price_Reset__c\x27, \x27Is_Price_Reset__c\x27, \x27PriceReset__c\x27]",
               none⟩,
              ⟨"Auto-Renewed Last Term", "SKIP",
               "Field not found. Looked for: [\x27Auto_Renewed_Last_Term__c\x27, \x27AutoRenewedLastTerm__c\x27, \x27Auto_Renewal_Last_Term__c\x27]",
               none⟩,
              ⟨"Cancellation Handling", "SKIP",
               "Cancellation field not found. Looked for: [\x27Cancelled_before_Renewal_Cycle__c\x27, \x27Cancelled_Before_Renewal__c\x27, \x27CancelledBeforeRenewal__c\x27]",
               none⟩,
              ⟨"Auto-Renewal Clause", "SKIP",
               "AR Clause field not found. Looked for: [\x27Auto_Renewal_Clause__c\x27, \x27AutoRenewalClause__c\x27, \x27AR_Clause__c\x27]",
               none⟩,
              ⟨"Field Discovery", "INFO", "Found 0 of 11 expected custom fields",
               some (.vObj [("Found_Fields", .vObj []),
                 ("Missing_Fields", .vList
                   [.vStr "netsuite_id", .vStr "parent_sub_id", .vStr "price_reset",
                    .vStr "auto_renewed_last_term", .vStr "cancelled_before_renewal",
                    .vStr "cancellation_notice", .vStr "auto_renewal_clause",
                    .vStr "prev_quote_ar_clause", .vStr "o2c_processed",
                    .vStr "subscription_id", .vStr "previous_quote"])])⟩]) :=
  ⟨rfl, c5_no_custom_fields [] "OPPW" [("Name", Value.vStr "W"), ("StageName", Value.vStr "S")] []
     (fun _ => Except.ok []) (Except.ok []) (Except.ok []) "W" "S" rfl rfl rfl⟩

/-- Counterexample to C5 as stated: with an empty schema the
parent-subscription check emits WARNING, not SKIP. -/
theorem c5_all_skip_counterexample :
    Except.map (fun r => r.checks.map (fun c => (c.name, c.status)))
        (validate_renewal_opportunity [] "OPP"
          [[("Id", Value.vStr "006"), ("Name", Value.vStr "Test Opp"),
            ("StageName", Value.vStr "Prospecting"), ("AccountId", Value.vNull)]]
          (fun _ => Except.ok []) (Except.ok []) (Except.ok []))
      = Except.ok [("Opportunity Found", "INFO"), ("O2C - NetSuite ID", "SKIP"),
          ("Parent Subscription ID", "WARNING"), ("Renewal Data vs Signed Quote", "WARNING"),
          ("Price Reset Checkbox", "SKIP"), ("Auto-Renewed Last Term", "SKIP"),
          ("Cancellation Handling", "SKIP"), ("Auto-Renewal Clause", "SKIP"),
          ("Field Discovery", "INFO")] := by rfl


/-! ## Claim C6 -/

/-- Claim C6 (amended): in the cancellation check, for every found record
whose cancelled-before-renewal flag is resolved and truthy: a missing-notice
issue is recorded exactly when the notice field is resolved and its value is
falsy (an unresolved notice field records no issue), a stage issue exactly
when the stage is not case-insensitively one of closed lost / lost /
cancelled; the outcome is FAIL with the joined issue list when any issue
exists and PASS otherwise. -/
theorem c6_cancellation_issues (f : List (String × String)) (opp : SRecord) (cf st : String)
    (hS : pyGetD opp "StageName" (Value.vStr "") = Value.vStr st)
    (hcf : List.lookup "cancelled_before_renewal" f = some cf)
    (ht : truthy (pyGet opp cf) = true) :
    is_lost_of opp = Except.ok (lostStages.contains (strToLower st))
    ∧ (check7_cancellation f opp (lostStages.contains (strToLower st))).status
        = (if noticeIssueB f opp || !(lostStages.contains (strToLower st)) then "FAIL" else "PASS")
    ∧ ((noticeIssueB f opp || !(lostStages.contains (strToLower st))) = true →
        (check7_cancellation f opp (lostStages.contains (strToLower st))).message
          = "Cancellation issues: " ++ String.intercalate "; "
              ((if noticeIssueB f opp then ["Cancellation Notice not attached"] else [])
               ++ (if !(lostStages.contains (strToLower st))
                   then ["Stage is \x27" ++ pyStr (pyGet opp "StageName") ++ "\x27 - should use Lost Button"]
                   else []))) := by
  have hisl : is_lost_of opp = Except.ok (lostStages.contains (strToLower st)) := by
    rw [is_lost_of, hS]; rfl
  refine ⟨hisl, ?_, ?_⟩ <;>
  · unfold check7_cancellation noticeIssueB
    rw [hcf]
    simp only [ht, if_true]
    cases hnf : List.lookup "cancellation_notice" f with
    | none =>
      cases hl : lostStages.contains (strToLower st) <;> simp
    | some nf =>
      cases hnv : truthy (pyGet opp nf) <;>
        cases hl : lostStages.contains (strToLower st) <;> simp [hnv]

/-- Witness for C6 at the spec's scenario: flag true, stage "Negotiation",
notice field resolved but empty: FAIL listing both issues. -/
theorem c6_cancellation_issues_witness :
    pyGetD [("Cancelled_before_Renewal_Cycle__c", Value.vBool true),
            ("Cancellation_Notice__c", Value.vStr ""), ("StageName", Value.vStr "Negotiation")]
        "StageName" (Value.vStr "") = Value.vStr "Negotiation"
    ∧ List.lookup "cancelled_before_renewal"
        [("cancelled_before_renewal", "Cancelled_before_Renewal_Cycle__c"),
         ("cancellation_notice", "Cancellation_Notice__c")]
        = some "Cancelled_before_Renewal_Cycle__c"
    ∧ (check7_cancellation
        [("cancelled_before_renewal", "Cancelled_before_Renewal_Cycle__c"),
         ("cancellation_notice", "Cancellation_Notice__c")]
        [("Cancelled_before_Renewal_Cycle__c", Value.vBool true),
         ("Cancellation_Notice__c", Value.vStr ""), ("StageName", Value.vStr "Negotiation")]
        (lostStages.contains (strToLower "Negotiation"))).status = "FAIL"
    ∧ (check7_cancellation
        [("cancelled_before_renewal", "Cancelled_before_Renewal_Cycle__c"),
         ("cancellation_notice", "Cancellation_Notice__c")]
        [("Cancelled_before_Renewal_Cycle__c", Value.vBool true),
         ("Cancellation_Notice__c", Value.vStr ""), ("StageName", Value.vStr "Negotiation")]
        (lostStages.contains (strToLower "Negotiation"))).message
      = "Cancellation issues: Cancellation Notice not attached; Stage is \x27Negotiation\x27 - should use Lost Button" := by
  have h := c6_cancellation_issues
    [("cancelled_before_renewal", "Cancelled_before_Renewal_Cycle__c"),
     ("cancellation_notice", "Cancellation_Notice__c")]
    [("Cancelled_before_Renewal_Cycle__c", Value.vBool true),
     ("Cancellation_Notice__c", Value.vStr ""), ("StageName", Value.vStr "Negotiation")]
    "Cancelled_before_Renewal_Cycle__c" "Negotiation" rfl rfl rfl
  refine ⟨rfl, rfl, ?_, ?_⟩
  · rw [h.2.1]
    rfl
  · rw [h.2.2 rfl]
    rfl

/-- Counterexample to C6 as stated: flag resolved and true, notice field
UNRESOLVED, stage "Closed Lost": the code records no notice issue and the
outcome is PASS, though the claim demands a notice issue (hence FAIL)
whenever the notice field is unresolved or empty. -/
theorem c6_unresolved_notice_counterexample :
    List.lookup "cancellation_notice"
        [("cancelled_before_renewal", "Cancelled_before_Renewal_Cycle__c")] = none
    ∧ truthy (pyGet [("Cancelled_before_Renewal_Cycle__c", Value.vBool true),
                     ("StageName", Value.vStr "Closed Lost")]
        "Cancelled_before_Renewal_Cycle__c") = true
    ∧ is_lost_of [("Cancelled_before_Renewal_Cycle__c", Value.vBool true),
                  ("StageName", Value.vStr "Closed Lost")] = Except.ok true
    ∧ (check7_cancellation [("cancelled_before_renewal", "Cancelled_before_Renewal_Cycle__c")]
        [("Cancelled_before_Renewal_Cycle__c", Value.vBool true),
         ("StageName", Value.vStr "Closed Lost")] true).status = "PASS" :=
  ⟨rfl, rfl, rfl, rfl⟩

/-! ## Claim C7 -/

/-- Claim C7 (amended): with at least one accepted-status quote, the amount
comparison yields PASS exactly when both amounts are present, nonzero numbers
with |quote - opp| < 0.01; WARNING when both are present, nonzero numbers
outside tolerance, reporting both values and the delta in the details; and
INFO exactly when either amount is missing or falsy (Python truthiness:
a zero amount behaves like a missing one). -/
theorem c7_amount_tolerance (opp : SRecord) (qs : List SRecord) (sq : SRecord) (tl : List SRecord)
    (hsq : qs.filter statusSigned = sq :: tl) :
    ((check3_signed_quote opp (Except.ok qs)).status = "INFO"
       ↔ (truthy (pyGet sq "SBQQ__NetAmount__c") = false ∨ truthy (pyGet opp "Amount") = false))
    ∧ (∀ x y : ℚ, pyGet sq "SBQQ__NetAmount__c" = Value.vNum x → pyGet opp "Amount" = Value.vNum y →
        x ≠ 0 → y ≠ 0 →
        (((check3_signed_quote opp (Except.ok qs)).status = "PASS" ↔ |x - y| < 1/100)
         ∧ (¬ |x - y| < 1/100 →
             (check3_signed_quote opp (Except.ok qs)).status = "WARNING"
             ∧ argsDetail (check3_signed_quote opp (Except.ok qs)) "Quote_Amount"
                 = some (Value.vNum x)
             ∧ argsDetail (check3_signed_quote opp (Except.ok qs)) "Opp_Amount"
                 = some (Value.vNum y)
             ∧ argsDetail (check3_signed_quote opp (Except.ok qs)) "Difference"
                 = some (Value.vNum |x - y|)))) := by
  cases qs with
  | nil => simp at hsq
  | cons q qs2 =>
    constructor
    · simp only [check3_signed_quote, check3_body]
      rw [hsq]
      cases hqa : truthy (pyGet sq "SBQQ__NetAmount__c") <;>
        cases hoa : truthy (pyGet opp "Amount")
      · simp [hqa, hoa]
      · simp [hqa, hoa]
      · simp [hqa, hoa]
      · simp only [hqa, hoa, Bool.and_self, if_true]
        cases hv : pyFloat (pyGet sq "SBQQ__NetAmount__c") with
        | error e => simp [Bind.bind, Except.bind, hv]
        | ok x2 =>
          cases hv2 : pyFloat (pyGet opp "Amount") with
          | error e => simp [Bind.bind, Except.bind, hv, hv2]
          | ok y2 =>
            by_cases htol : |x2 - y2| < (100 : ℚ)⁻¹ <;>
              simp [Bind.bind, Except.bind, hv, hv2, htol]
    · intro x y hx hy hx0 hy0
      have htx : truthy (Value.vNum x) = true := by simp [truthy, hx0]
      have hty : truthy (Value.vNum y) = true := by simp [truthy, hy0]
      simp only [check3_signed_quote, check3_body]
      rw [hsq]
      by_cases htol : |x - y| < (100 : ℚ)⁻¹
      · simp [hx, hy, htx, hty, Bind.bind, Except.bind, pyFloat, htol]
      · simp [hx, hy, htx, hty, Bind.bind, Except.bind, pyFloat, htol, argsDetail, List.lookup]

/-- Witness for C7 at the spec's numeric examples: 10000.00 vs 10000.005 is
within the 0.01 tolerance (PASS); 10000.00 vs 10000.02 is outside (WARNING
with delta 0.02 = 1/50 reported). -/
theorem c7_amount_tolerance_witness :
    ([[("SBQQ__Status__c", Value.vStr "Accepted"), ("SBQQ__NetAmount__c", Value.vNum 10000),
       ("Name", Value.vStr "Q1")]].filter statusSigned
      = [[("SBQQ__Status__c", Value.vStr "Accepted"), ("SBQQ__NetAmount__c", Value.vNum 10000),
          ("Name", Value.vStr "Q1")]])
    ∧ (check3_signed_quote [("Amount", Value.vNum 10000.005)]
        (Except.ok [[("SBQQ__Status__c", Value.vStr "Accepted"),
          ("SBQQ__NetAmount__c", Value.vNum 10000), ("Name", Value.vStr "Q1")]])).status = "PASS"
    ∧ (check3_signed_quote [("Amount", Value.vNum 10000.02)]
        (Except.ok [[("SBQQ__Status__c", Value.vStr "Accepted"),
          ("SBQQ__NetAmount__c", Value.vNum 10000), ("Name", Value.vStr "Q1")]])).status = "WARNING"
    ∧ argsDetail (check3_signed_quote [("Amount", Value.vNum 10000.02)]
        (Except.ok [[("SBQQ__Status__c", Value.vStr "Accepted"),
          ("SBQQ__NetAmount__c", Value.vNum 10000), ("Name", Value.vStr "Q1")]])) "Difference"
      = some (Value.vNum (1/50)) := by
  have hp := (c7_amount_tolerance [("Amount", Value.vNum 10000.005)]
      [[("SBQQ__Status__c", Value.vStr "Accepted"), ("SBQQ__NetAmount__c", Value.vNum 10000),
        ("Name", Value.vStr "Q1")]] _ [] rfl).2
      10000 10000.005 rfl rfl (by norm_num) (by norm_num)
  have hw := (c7_amount_tolerance [("Amount", Value.vNum 10000.02)]
      [[("SBQQ__Status__c", Value.vStr "Accepted"), ("SBQQ__NetAmount__c", Value.vNum 10000),
        ("Name", Value.vStr "Q1")]] _ [] rfl).2
      10000 10000.02 rfl rfl (by norm_num) (by norm_num)
  have habs : |(10000 : ℚ) - 10000.02| = 1/50 := by
    rw [abs_of_nonpos (by norm_num)]
    norm_num
  have habs2 : |(10000 : ℚ) - 10000.005| = 1/200 := by
    rw [abs_of_nonpos (by norm_num)]
    norm_num
  have hnlt : ¬ |(10000 : ℚ) - 10000.02| < 1/100 := by
    rw [habs]; norm_num
  refine ⟨rfl, hp.1.mpr (by rw [habs2]; norm_num), (hw.2 hnlt).1, ?_⟩
  rw [(hw.2 hnlt).2.2.2, habs]

/-- Counterexample to C7 as stated: an accepted quote with net amount 0 and an
opportunity amount 100 — both amounts present as numbers — yields INFO, not
the WARNING the claim requires for present amounts outside tolerance. -/
theorem c7_zero_amount_counterexample :
    pyGet [("SBQQ__Status__c", Value.vStr "Accepted"), ("SBQQ__NetAmount__c", Value.vNum 0),
           ("Name", Value.vStr "Q1")] "SBQQ__NetAmount__c" = Value.vNum 0
    ∧ pyGet [("Amount", Value.vNum 100)] "Amount" = Value.vNum 100
    ∧ (check3_signed_quote [("Amount", Value.vNum 100)]
        (Except.ok [[("SBQQ__Status__c", Value.vStr "Accepted"),
          ("SBQQ__NetAmount__c", Value.vNum 0), ("Name", Value.vStr "Q1")]])).status = "INFO" :=
  ⟨rfl, rfl, rfl⟩

/-! ## Claim C8 -/

/-- Claim C8 (amended): a failing secondary lookup is caught at the check's
boundary and converted into a single WARNING (subscription existence) or SKIP
(quote listing, upsell listing) outcome, with the underlying error message
embedded in the outcome's MESSAGE (the subscription check's details hold the
parent-subscription id; the two SKIP outcomes carry no details); the failure
never escapes the check. -/
theorem c8_lookup_failures (f : List (String × String)) (opp : SRecord)
    (cf e1 e2 e3 : String)
    (hpf : List.lookup "parent_sub_id" f = some cf)
    (hpt : truthy (pyGet opp cf) = true)
    (hacct : truthy (pyGet opp "AccountId") = true) :
    check2_parent_subscription f opp (fun _ => Except.error e1)
      = ⟨"Parent Subscription ID", "WARNING", "Could not validate subscription: " ++ e1,
         Value.vObj [("Parent_Sub_ID", pyGet opp cf)]⟩
    ∧ check3_signed_quote opp (Except.error e2)
      = ⟨"Renewal Data vs Signed Quote", "SKIP", "Could not query quotes: " ++ e2, Value.vNull⟩
    ∧ check4_upsells opp (Except.error e3)
      = [⟨"Upsells in Current Term", "SKIP", "Could not query upsells: " ++ e3, Value.vNull⟩] := by
  refine ⟨?_, rfl, ?_⟩
  · unfold check2_parent_subscription
    rw [hpf]
    simp [hpt]
  · unfold check4_upsells
    simp [hacct]

/-- Witness for C8 at a concrete record and failing lookups. -/
theorem c8_lookup_failures_witness :
    List.lookup "parent_sub_id" [("parent_sub_id", "Parent_Subscription_ID__c")]
        = some "Parent_Subscription_ID__c"
    ∧ truthy (pyGet [("Parent_Subscription_ID__c", Value.vStr "a0A1"),
        ("AccountId", Value.vStr "001A")] "Parent_Subscription_ID__c") = true
    ∧ check2_parent_subscription [("parent_sub_id", "Parent_Subscription_ID__c")]
        [("Parent_Subscription_ID__c", Value.vStr "a0A1"), ("AccountId", Value.vStr "001A")]
        (fun _ => Except.error "E1")
      = ⟨"Parent Subscription ID", "WARNING", "Could not validate subscription: E1",
         Value.vObj [("Parent_Sub_ID",
           pyGet [("Parent_Subscription_ID__c", Value.vStr "a0A1"),
                  ("AccountId", Value.vStr "001A")] "Parent_Subscription_ID__c")]⟩
    ∧ check4_upsells [("Parent_Subscription_ID__c", Value.vStr "a0A1"),
        ("AccountId", Value.vStr "001A")] (Except.error "E3")
      = [⟨"Upsells in Current Term", "SKIP", "Could not query upsells: E3", Value.vNull⟩] := by
  have h := c8_lookup_failures [("parent_sub_id", "Parent_Subscription_ID__c")]
    [("Parent_Subscription_ID__c", Value.vStr "a0A1"), ("AccountId", Value.vStr "001A")]
    "Parent_Subscription_ID__c" "E1" "E2" "E3" rfl rfl rfl
  exact ⟨rfl, rfl, h.1, h.2.2⟩

/-- Counterexample to C8 as stated: the quote-listing failure outcome carries
the error text only in its message; its details entry is absent, so the error
message is not embedded in the outcome's details. -/
theorem c8_details_counterexample :
    check3_signed_quote [] (Except.error "boom")
      = ⟨"Renewal Data vs Signed Quote", "SKIP", "Could not query quotes: boom", Value.vNull⟩
    ∧ (mkCheck (check3_signed_quote [] (Except.error "boom"))).details = none :=
  ⟨rfl, rfl⟩

end RenewalValidation
